import Mathlib

/-!
Verification model of the reddit-automation repository.

The repository drives a browser (puppeteer) to log in to Reddit and deliver
direct messages, either to a single target (redditMessenger in index.js) or to
a batch of targets parsed from a file (processOptimizedBatch in
optimizedBatch.js), with shared helpers in redditUtils.js.

Embedding conventions:
- every external awaited call (page navigation, selector wait, page.evaluate,
  solver call, file read, result save) is an oracle field of an environment
  structure, of type Except String _ : the error case models the call throwing,
  and the carried String is the message of the thrown error;
- page.evaluate results carry the value the evaluated script would compute
  from the live page state (booleans, page text, indicator vectors);
- observable side effects that the specification talks about (pacing delays,
  browser teardown, reaching the chat-url extraction step, challenge solving
  steps) are recorded in an event trace returned next to the result;
- thrown JS errors are modelled as Except.error with the exact message string
  built by the source.
-/

/-- The newline character, the separator of the target file. -/
def lineFeed : Char := Char.ofNat 10

/-- Prefix test on character lists. -/
def isPrefixList : List Char → List Char → Bool
  | [], _ => true
  | _ :: _, [] => false
  | p :: ps, c :: cs => p == c && isPrefixList ps cs

/-- Occurrence test of a pattern in a character list. -/
def containsSub (pat : List Char) : List Char → Bool
  | [] => isPrefixList pat []
  | c :: cs => isPrefixList pat (c :: cs) || containsSub pat cs

/-- Substring test, modelling the JS String.includes used throughout the
source: true when the pattern occurs somewhere in the string. -/
def containsSubstr (s pat : String) : Bool :=
  containsSub pat.data s.data

/-- Split on the newline character, modelling the JS split used by the
target-list parsing. -/
def splitOnChar (c : Char) : List Char → List (List Char)
  | [] => [[]]
  | x :: xs =>
    let r := splitOnChar c xs
    if x == c then [] :: r
    else
      match r with
      | [] => [[x]]
      | h :: t => (x :: h) :: t

/-- The newline split of a string, as a list of lines. -/
def jsSplitLines (s : String) : List String :=
  (splitOnChar lineFeed s.data).map String.mk

/-- Surrounding-whitespace trim, modelling the JS String.trim. -/
def jsTrim (s : String) : String :=
  String.mk
    (((s.data.dropWhile Char.isWhitespace).reverse.dropWhile
      Char.isWhitespace).reverse)

/-- Prefix test, modelling the JS String.startsWith. -/
def jsStartsWith (s pat : String) : Bool :=
  isPrefixList pat.data s.data

/-- JS truthiness of an optional string value: null, undefined and the empty
string are falsy, every other string is truthy. -/
def truthyStr : Option String → Bool
  | none => false
  | some s => s != ""

/-- Observable side effects of a run, recorded in traces. -/
inductive Event where
  | attempted (user : String)
  | delayed
  | browserClosed
  | extractChatUrlCalled
  | sitekeyExtracted
  | solverCalled
  | tokenSubmitted
  deriving DecidableEq

/-- A failure record pushed by the batch loop (optimizedBatch.js lines 67-71)
and by the single-message catch block (index.js lines 61-65). -/
structure FailureEntry where
  user : String
  error : String
  timestamp : String
  deriving DecidableEq

/-- The results object of processOptimizedBatch (optimizedBatch.js
lines 44-47): success usernames and failure records, each in push order. -/
structure BatchResults where
  success : List String
  failed : List FailureEntry
  deriving DecidableEq

/-- Target-list parsing of processOptimizedBatch (optimizedBatch.js
lines 21-25): split the file contents on newlines, trim each line, keep the
lines that are truthy (nonempty) and do not start with the comment marker. -/
def parseUsers (usersData : String) : List String :=
  ((jsSplitLines usersData).map jsTrim).filter
    (fun line => line != "" && !jsStartsWith line "#")

/-- Modelled from the specification wording (section 6, target list input):
newline-delimited identifiers; blank lines and lines beginning with a comment
marker are ignored; order is preserved. Stated as a fold so that it can be
compared against parseUsers, which comes from the source. -/
def specTargetList (usersData : String) : List String :=
  (jsSplitLines usersData).foldr
    (fun line acc =>
      let t := jsTrim line
      if t = "" then acc
      else if jsStartsWith t "#" then acc
      else t :: acc) []

/-- The indicator vector computed by the first page.evaluate of
verifyLoginSuccess (redditUtils.js lines 254-271): one boolean per DOM query. -/
structure DomIndicators where
  expandUserDrawerButton : Bool
  userAvatar : Bool
  userAvatarSpan : Bool
  faceplateUserDrawer : Bool
  userMenuTrigger : Bool
  createButton : Bool
  karma : Bool
  noLoginForm : Bool
  noLoginPage : Bool
  deriving DecidableEq

/-- Count of indicators whose value is true (redditUtils.js lines 274-275);
the filter on the key name currentUrl excludes nothing, since no such key is
in the indicator object. -/
def positiveIndicators (d : DomIndicators) : Nat :=
  d.expandUserDrawerButton.toNat + d.userAvatar.toNat + d.userAvatarSpan.toNat +
    d.faceplateUserDrawer.toNat + d.userMenuTrigger.toNat + d.createButton.toNat +
    d.karma.toNat + d.noLoginForm.toNat + d.noLoginPage.toNat

/-- The strong-indicator disjunction (redditUtils.js lines 278-284). -/
def strongIndicators (d : DomIndicators) : Bool :=
  d.expandUserDrawerButton || d.userAvatar || d.userAvatarSpan ||
    d.faceplateUserDrawer || d.userMenuTrigger || d.karma

/-- The likely-success conjunction (redditUtils.js lines 287-289). -/
def likelySuccess (d : DomIndicators) : Bool :=
  (d.noLoginForm || d.noLoginPage) &&
    (decide (2 ≤ positiveIndicators d) || strongIndicators d)

/-- The value returned by the DOM verification evaluate
(redditUtils.js line 291). -/
def domVerification (d : DomIndicators) : Bool :=
  strongIndicators d || likelySuccess d || decide (3 ≤ positiveIndicators d)

/-- URL-based login check (redditUtils.js lines 246-249): success when the
current URL contains none of the three failure markers. -/
def urlIndicatesSuccess (url : String) : Bool :=
  !containsSubstr url "/login" && !containsSubstr url "/register" &&
    !containsSubstr url "/error"

/-- Page state read by the retry page.evaluate of verifyLoginSuccess
(redditUtils.js lines 304-317). -/
structure RetryIndicators where
  expandUserDrawerButton : Bool
  userAvatar : Bool
  userAvatarSpan : Bool
  faceplateUserDrawer : Bool
  loginUsernameInput : Bool
  href : String
  userTestId : Bool
  createButton : Bool
  deriving DecidableEq

/-- The reduced quick check of the retry evaluate
(redditUtils.js lines 306-314). -/
def retryQuickCheck (r : RetryIndicators) : Bool :=
  r.expandUserDrawerButton || r.userAvatar || r.userAvatarSpan ||
    r.faceplateUserDrawer ||
    (!r.loginUsernameInput && !containsSubstr r.href "/login" &&
      (r.userTestId || r.createButton))

/-- Oracle inputs of verifyLoginSuccess. The waitForNavigation at lines
236-240 is caught either way and only logs, so it does not appear. The two
page.evaluate calls may throw, which the outer catch turns into false. -/
structure VerifyEnv where
  currentUrl : String
  domEval : Except String DomIndicators
  retryEval : Except String RetryIndicators

/-- verifyLoginSuccess (redditUtils.js lines 232-333). Returns the verdict
and how many times the retry evaluate was entered. An exception in an
evaluate is caught at line 329 and returns false. When the combined primary
verification fails, the retry is performed once and both of its outcomes
return true (lines 319-325), mirroring the source. -/
def verifyLoginSuccess (env : VerifyEnv) : Bool × Nat :=
  match env.domEval with
  | .error _ => (false, 0)
  | .ok d =>
    if urlIndicatesSuccess env.currentUrl || domVerification d then (true, 0)
    else
      match env.retryEval with
      | .error _ => (false, 1)
      | .ok r => if !retryQuickCheck r then (true, 1) else (true, 1)

/-- Error message thrown when a challenge is displayed and no solver is
configured (redditUtils.js line 192). -/
def noSolverMsg : String :=
  "CAPTCHA challenge detected but no 2Captcha API key configured"

/-- Error message thrown when the sitekey extraction returns null
(redditUtils.js line 203). -/
def sitekeyNotFoundMsg : String := "CAPTCHA sitekey not found"

/-- Oracle inputs of handleCaptchaIfPresent: the detection evaluate
(lines 170-186), the sitekey extraction evaluate (lines 195-200), the solver
call (lines 207-211), the token injection and submit-click evaluate
(lines 213-220), and the navigation wait (line 223). -/
structure CaptchaEnv where
  requiredEval : Except String Bool
  sitekeyEval : Except String (Option String)
  solveResult : Except String String
  submitEval : Except String Unit
  navResult : Except String Unit

/-- handleCaptchaIfPresent (redditUtils.js lines 169-227). The solver
argument models the Solver object: some key when one was constructed, none
when it is null. Events record which solving steps were reached. -/
def handleCaptchaIfPresent (env : CaptchaEnv) (solver : Option String) :
    Except String Unit × List Event :=
  match env.requiredEval with
  | .error e => (.error e, [])
  | .ok false => (.ok (), [])
  | .ok true =>
    match solver with
    | none => (.error noSolverMsg, [])
    | some _ =>
      match env.sitekeyEval with
      | .error e => (.error e, [Event.sitekeyExtracted])
      | .ok none => (.error sitekeyNotFoundMsg, [Event.sitekeyExtracted])
      | .ok (some _) =>
        match env.solveResult with
        | .error e => (.error e, [Event.sitekeyExtracted, Event.solverCalled])
        | .ok _ =>
          match env.submitEval with
          | .error e =>
            (.error e,
              [Event.sitekeyExtracted, Event.solverCalled, Event.tokenSubmitted])
          | .ok _ =>
            match env.navResult with
            | .error e =>
              (.error e,
                [Event.sitekeyExtracted, Event.solverCalled, Event.tokenSubmitted])
            | .ok _ =>
              (.ok (),
                [Event.sitekeyExtracted, Event.solverCalled, Event.tokenSubmitted])

/-- Solver construction at redditUtils.js line 53: a Solver is built exactly
when the configured key is truthy, otherwise the solver is null. -/
def solverOf (captchaApiKey : Option String) : Option String :=
  if truthyStr captchaApiKey then captchaApiKey else none

/-- Error thrown when neither submit attempt finds a button
(redditUtils.js line 142). -/
def loginButtonNotFoundMsg : String :=
  "Login button not found after comprehensive search"

/-- Error thrown when verifyLoginSuccess returns false
(redditUtils.js line 155). -/
def loginVerificationFailedMsg : String :=
  "Login verification failed - incorrect credentials or Reddit is blocking the login"

/-- Oracle inputs of loginToReddit (redditUtils.js lines 52-164): navigation
to the login page, the two selector waits, the two credential-fill evaluates,
the two submit-click evaluates, then the captcha and verification stages. -/
structure LoginEnv where
  captchaApiKey : Option String
  gotoLoginResult : Except String Unit
  waitUserResult : Except String Unit
  waitPassResult : Except String Unit
  fillUserEval : Except String Unit
  fillPassEval : Except String Unit
  clickEval : Except String Bool
  secondClickEval : Except String Bool
  captchaEnv : CaptchaEnv
  verifyEnv : VerifyEnv

/-- The submit-click stage (redditUtils.js lines 97-144): the first evaluate
returning false leads to the second attempt; both returning false throws. -/
def submitClickStep (env : LoginEnv) : Except String Unit :=
  match env.clickEval with
  | .error e => .error e
  | .ok true => .ok ()
  | .ok false =>
    match env.secondClickEval with
    | .error e => .error e
    | .ok true => .ok ()
    | .ok false => .error loginButtonNotFoundMsg

/-- The awaited steps of loginToReddit before the captcha stage, in source
order (redditUtils.js lines 57-147), with the first thrown error winning. -/
def preSubmitSteps (env : LoginEnv) : Except String Unit :=
  match env.gotoLoginResult with
  | .error e => .error e
  | .ok _ =>
    match env.waitUserResult with
    | .error e => .error e
    | .ok _ =>
      match env.waitPassResult with
      | .error e => .error e
      | .ok _ =>
        match env.fillUserEval with
        | .error e => .error e
        | .ok _ =>
          match env.fillPassEval with
          | .error e => .error e
          | .ok _ => submitClickStep env

/-- loginToReddit (redditUtils.js lines 52-164). The catch at lines 160-163
logs and rethrows, so it preserves every error. The solver handed to
handleCaptchaIfPresent is built from the configured key (line 53). -/
def loginToReddit (env : LoginEnv) : Except String Bool × List Event :=
  match preSubmitSteps env with
  | .error e => (.error e, [])
  | .ok _ =>
    let hc := handleCaptchaIfPresent env.captchaEnv (solverOf env.captchaApiKey)
    match hc.1 with
    | .error e => (.error e, hc.2)
    | .ok _ =>
      if (verifyLoginSuccess env.verifyEnv).1 then (.ok true, hc.2)
      else (.error loginVerificationFailedMsg, hc.2)

/-- Page state read by the delivery-confirmation evaluate of
sendMessageInChatInterface (redditUtils.js lines 656-668): the page body text
and whether the message-sent test id element is present. -/
structure ChatPage where
  bodyText : String
  sentTestId : Bool
  deriving DecidableEq

/-- The explicit failure scan (redditUtils.js lines 657-658). -/
def failurePhrase (p : ChatPage) : Bool :=
  containsSubstr p.bodyText "Failed to send" ||
    containsSubstr p.bodyText "Message failed"

/-- The explicit success scan (redditUtils.js lines 662-663). -/
def successIndicator (p : ChatPage) : Bool :=
  p.sentTestId || containsSubstr p.bodyText "Message sent"

/-- The deliveryStatus value (redditUtils.js lines 656-668): failed when a
failure phrase is present, else sent when a success indicator is present,
else unknown. -/
def deliveryStatus (p : ChatPage) : String :=
  if failurePhrase p then "failed"
  else if successIndicator p then "sent"
  else "unknown"

/-- Error thrown on a failed delivery status (redditUtils.js line 671). -/
def deliveryFailedMsg : String :=
  "Message delivery failed - Reddit may have blocked the message"

/-- The final delivery check of sendMessageInChatInterface (redditUtils.js
lines 656-673): throw exactly when the status is failed, otherwise return. -/
def confirmDelivery (p : ChatPage) : Except String Unit :=
  if deliveryStatus p = "failed" then .error deliveryFailedMsg else .ok ()

/-- Oracle inputs of sendMessageInChatInterface (redditUtils.js
lines 450-673). The waitForSelector at line 452 has its own catch and only
logs, so it does not appear. composeEval is the shadow-DOM typing evaluate
(lines 459-561); altTypeResult the composer-click-and-type fallback
(lines 567-574); mouseTypeResult the last-resort mouse-click-and-type
(lines 576-584); sendClickEval the send-button evaluate (lines 593-644);
enterResult the Enter-key fallback (line 648); statusPage the page state at
the confirmation scan. -/
structure ChatEnv where
  composeEval : Except String Bool
  altTypeResult : Except String Unit
  mouseTypeResult : Except String Unit
  sendClickEval : Except String Bool
  enterResult : Except String Unit
  statusPage : ChatPage

/-- sendMessageInChatInterface (redditUtils.js lines 450-673). When the
shadow-DOM evaluate reports no effect, the composer-click fallback runs; an
error there falls back to the mouse-and-keyboard path whose error would
propagate. When the send-button evaluate reports no click, the Enter key is
pressed. The function ends with the delivery confirmation. -/
def sendMessageInChatInterface (env : ChatEnv) : Except String Unit :=
  match env.composeEval with
  | .error e => .error e
  | .ok sent =>
    let afterCompose : Except String Unit :=
      if sent then .ok ()
      else
        match env.altTypeResult with
        | .ok _ => .ok ()
        | .error _ => env.mouseTypeResult
    match afterCompose with
    | .error e => .error e
    | .ok _ =>
      match env.sendClickEval with
      | .error e => .error e
      | .ok clicked =>
        let afterSend : Except String Unit :=
          if clicked then .ok () else env.enterResult
        match afterSend with
        | .error e => .error e
        | .ok _ => confirmDelivery env.statusPage

/-- Profile classification of sendMessageToUser. -/
inductive UserStatus where
  | not_found
  | suspended
  | exists_
  deriving DecidableEq

/-- The classification evaluate (redditUtils.js lines 399-407): scan the
profile body text for the two known phrases, in source order. -/
def classifyUser (bodyText : String) : UserStatus :=
  if containsSubstr bodyText "Sorry, nobody on Reddit goes by that name" then
    UserStatus.not_found
  else if containsSubstr bodyText "This account has been suspended" then
    UserStatus.suspended
  else UserStatus.exists_

/-- Error thrown when extractChatUrl returns null (redditUtils.js
line 417). -/
def chatButtonNotFoundMsg : String :=
  "Chat button not found or user has disabled messaging"

/-- Oracle inputs of sendMessageToUser (redditUtils.js lines 389-445) and of
extractChatUrl (lines 338-384): profile navigation, the profile body text,
the button wait inside extractChatUrl, the chat-url evaluate result (null or
a url), the chat navigation, the chat page url, and the chat interface
oracle. -/
structure SendEnv where
  gotoProfileResult : Except String Unit
  profileBody : String
  waitButtonsResult : Except String Unit
  chatUrlEval : Except String (Option String)
  gotoChatResult : Except String Unit
  chatPageUrl : String
  chatEnv : ChatEnv

/-- extractChatUrl (redditUtils.js lines 338-384): wait for buttons and
links, then evaluate the ordered selector cascade, whose outcome is the
oracle value (a chat url or null). -/
def extractChatUrl (env : SendEnv) : Except String (Option String) :=
  match env.waitButtonsResult with
  | .error e => .error e
  | .ok _ => env.chatUrlEval

/-- sendMessageToUser (redditUtils.js lines 389-445). The catch at lines
441-444 logs and rethrows, preserving every error. The trace records when
the extractChatUrl step was reached. -/
def sendMessageToUser (env : SendEnv) (targetUser : String) :
    Except String Unit × List Event :=
  match env.gotoProfileResult with
  | .error e => (.error e, [])
  | .ok _ =>
    match classifyUser env.profileBody with
    | UserStatus.not_found =>
      (.error ("User " ++ targetUser ++ " not found"), [])
    | UserStatus.suspended =>
      (.error ("User " ++ targetUser ++ " account suspended"), [])
    | UserStatus.exists_ =>
      match extractChatUrl env with
      | .error e => (.error e, [Event.extractChatUrlCalled])
      | .ok none => (.error chatButtonNotFoundMsg, [Event.extractChatUrlCalled])
      | .ok (some _) =>
        match env.gotoChatResult with
        | .error e => (.error e, [Event.extractChatUrlCalled])
        | .ok _ =>
          if !containsSubstr env.chatPageUrl "chat.reddit.com" then
            (.error ("Not on chat page. Current URL: " ++ env.chatPageUrl),
              [Event.extractChatUrlCalled])
          else
            match sendMessageInChatInterface env.chatEnv with
            | .error e => (.error e, [Event.extractChatUrlCalled])
            | .ok _ => (.ok (), [Event.extractChatUrlCalled])

/-- Oracle inputs of initBrowser (redditUtils.js lines 20-47): the browser
launch, the page creation, and the two page setup calls, in source order. -/
structure BrowserEnv where
  launchResult : Except String Unit
  newPageResult : Except String Unit
  setViewportResult : Except String Unit
  setUserAgentResult : Except String Unit

/-- initBrowser (redditUtils.js lines 20-47): the four awaited steps in
order, the first thrown error winning; the browser and page handles reach
the caller only when all four succeed. -/
def initBrowser (env : BrowserEnv) : Except String Unit :=
  match env.launchResult with
  | .error e => .error e
  | .ok _ =>
    match env.newPageResult with
    | .error e => .error e
    | .ok _ =>
      match env.setViewportResult with
      | .error e => .error e
      | .ok _ => env.setUserAgentResult

/-- True when puppeteer.launch succeeded, that is, a browser session came
into existence, whether or not initBrowser then returned it. -/
def sessionLaunched (env : BrowserEnv) : Bool :=
  match env.launchResult with
  | .ok _ => true
  | .error _ => false

/-- Oracle inputs of redditMessenger (index.js lines 26-82): browser
initialization, login, delivery, and the two saveResults calls (the success
one in the try block, the failure one in the catch block). -/
structure SingleEnv where
  browserEnv : BrowserEnv
  loginResult : Except String Unit
  deliverResult : Except String Unit
  saveOkResult : Except String Unit
  saveFailResult : Except String Unit

/-- The catch block of redditMessenger (index.js lines 58-74): save the
failure record, then rethrow the original error; an error thrown by the save
itself replaces the original one. The closed argument is the trace the
finally block produces on this path. -/
def catchAndRethrow (e : String) (saveFailResult : Except String Unit)
    (closed : List Event) : Except String Bool × List Event :=
  match saveFailResult with
  | .error e2 => (.error e2, closed)
  | .ok _ => (.error e, closed)

/-- redditMessenger (index.js lines 26-82). The browser handle is assigned
only after initBrowser returns (line 33), so the finally block closes the
browser exactly on the paths reached after a successful initBrowser. -/
def redditMessenger (env : SingleEnv) : Except String Bool × List Event :=
  match initBrowser env.browserEnv with
  | .error e => catchAndRethrow e env.saveFailResult []
  | .ok _ =>
    match env.loginResult with
    | .error e => catchAndRethrow e env.saveFailResult [Event.browserClosed]
    | .ok _ =>
      match env.deliverResult with
      | .error e => catchAndRethrow e env.saveFailResult [Event.browserClosed]
      | .ok _ =>
        match env.saveOkResult with
        | .error e => catchAndRethrow e env.saveFailResult [Event.browserClosed]
        | .ok _ => (.ok true, [Event.browserClosed])

/-- Oracle inputs of processOptimizedBatch (optimizedBatch.js lines 15-102):
the file read, browser initialization, the one-time login, the per-index
per-target delivery outcome, the wall clock at each loop index, and the
saveResults call. -/
structure BatchEnv where
  usersFileData : Except String String
  browserEnv : BrowserEnv
  loginResult : Except String Unit
  deliver : Nat → String → Except String Unit
  now : Nat → String
  saveResult : Except String String

/-- The per-user loop of processOptimizedBatch (optimizedBatch.js
lines 55-79), starting at index i: each target is attempted; a success is
pushed to the success list, an error is caught and pushed as a failure
record with the message and timestamp; the pacing delay is awaited after
every target except the last. -/
def runTargets (deliver : Nat → String → Except String Unit)
    (now : Nat → String) : Nat → List String → BatchResults × List Event
  | _, [] => ({ success := [], failed := [] }, [])
  | i, u :: rest =>
    let r := runTargets deliver now (i + 1) rest
    let res : BatchResults :=
      match deliver i u with
      | .ok _ => { success := u :: r.1.success, failed := r.1.failed }
      | .error e =>
        { success := r.1.success
          failed := { user := u, error := e, timestamp := now i } :: r.1.failed }
    (res,
      Event.attempted u ::
        ((if rest.isEmpty then [] else [Event.delayed]) ++ r.2))

/-- processOptimizedBatch (optimizedBatch.js lines 15-102). The browser
handle is assigned only after initBrowser returns (line 34), so the finally
block closes the browser exactly on the paths reached after a successful
initBrowser; the file read precedes browser creation. The catch at lines
92-94 logs and rethrows, preserving every error. -/
def processOptimizedBatch (env : BatchEnv) :
    Except String BatchResults × List Event :=
  match env.usersFileData with
  | .error e => (.error e, [])
  | .ok usersData =>
    let users := parseUsers usersData
    match initBrowser env.browserEnv with
    | .error e => (.error e, [])
    | .ok _ =>
      match env.loginResult with
      | .error e => (.error e, [Event.browserClosed])
      | .ok _ =>
        let r := runTargets env.deliver env.now 0 users
        match env.saveResult with
        | .error e => (.error e, r.2 ++ [Event.browserClosed])
        | .ok _ => (.ok r.1, r.2 ++ [Event.browserClosed])

/-- Number of pacing delays recorded in a trace. -/
def countDelays (tr : List Event) : Nat := tr.count Event.delayed

/-- The targets attempted by a trace, in order. -/
def attemptsOf (tr : List Event) : List String :=
  tr.filterMap (fun ev =>
    match ev with
    | Event.attempted u => some u
    | _ => none)

/-- The captchaApiKey default of DEFAULT_CONFIG (index.js line 15). -/
def DEFAULT_CONFIG_captchaApiKey : Option String :=
  some "YOUR_CAPTCHA_API_KEY_HERE"

/-- The spread merge of redditMessenger (index.js line 27) restricted to the
captchaApiKey field: an absent override keeps the default; a present override
(including an explicit null, undefined or empty string, modelled as
some none and some (some empty)) replaces it. -/
def mergedCaptchaApiKey (configOverride : Option (Option String)) :
    Option String :=
  match configOverride with
  | none => DEFAULT_CONFIG_captchaApiKey
  | some v => v

/-- A browser oracle whose four initialization steps all succeed. -/
def okBrowserEnv : BrowserEnv :=
  { launchResult := .ok (), newPageResult := .ok (),
    setViewportResult := .ok (), setUserAgentResult := .ok () }

/-- Concrete batch oracle: two targets, the second failing to deliver. -/
def c1Env : BatchEnv :=
  { usersFileData := .ok "alice\nbob",
    browserEnv := okBrowserEnv,
    loginResult := .ok (),
    deliver := fun _ u => if u == "bob" then .error "boom" else .ok (),
    now := fun _ => "t1",
    saveResult := .ok "results.json" }

/-- Concrete browser oracle where the launch succeeds but the page creation
inside initBrowser throws. -/
def c2CexBrowserEnv : BrowserEnv :=
  { launchResult := .ok (), newPageResult := .error "newPage failed",
    setViewportResult := .ok (), setUserAgentResult := .ok () }

/-- Concrete single-run oracle around c2CexBrowserEnv. -/
def c2CexEnv : SingleEnv :=
  { browserEnv := c2CexBrowserEnv, loginResult := .ok (),
    deliverResult := .ok (), saveOkResult := .ok (), saveFailResult := .ok () }

/-- Concrete single-run oracle where every step succeeds. -/
def c2OkEnv : SingleEnv :=
  { browserEnv := okBrowserEnv, loginResult := .ok (),
    deliverResult := .ok (), saveOkResult := .ok (), saveFailResult := .ok () }

/-- Concrete chat-interface oracle where typing and clicking succeed and the
final page shows neither a failure phrase nor a success indicator. -/
def c3ChatEnv : ChatEnv :=
  { composeEval := .ok true, altTypeResult := .ok (),
    mouseTypeResult := .ok (), sendClickEval := .ok true,
    enterResult := .ok (), statusPage := { bodyText := "", sentTestId := false } }

/-- Concrete delivery oracle whose profile page shows the not-found phrase. -/
def c3Env : SendEnv :=
  { gotoProfileResult := .ok (),
    profileBody := "Sorry, nobody on Reddit goes by that name",
    waitButtonsResult := .ok (), chatUrlEval := .ok none,
    gotoChatResult := .ok (), chatPageUrl := "", chatEnv := c3ChatEnv }

/-- Concrete verification oracle with every indicator absent. -/
def c4VerifyEnv : VerifyEnv :=
  { currentUrl := "https://www.reddit.com/",
    domEval := .ok
      { expandUserDrawerButton := false, userAvatar := false,
        userAvatarSpan := false, faceplateUserDrawer := false,
        userMenuTrigger := false, createButton := false, karma := false,
        noLoginForm := false, noLoginPage := false },
    retryEval := .ok
      { expandUserDrawerButton := false, userAvatar := false,
        userAvatarSpan := false, faceplateUserDrawer := false,
        loginUsernameInput := false, href := "", userTestId := false,
        createButton := false } }

/-- Concrete login oracle: no captcha key configured, every step before the
challenge check succeeding, and a displayed challenge. -/
def c4Env : LoginEnv :=
  { captchaApiKey := none,
    gotoLoginResult := .ok (), waitUserResult := .ok (),
    waitPassResult := .ok (), fillUserEval := .ok (), fillPassEval := .ok (),
    clickEval := .ok true, secondClickEval := .ok true,
    captchaEnv :=
      { requiredEval := .ok true, sitekeyEval := .ok (some "sk"),
        solveResult := .ok "token", submitEval := .ok (), navResult := .ok () },
    verifyEnv := c4VerifyEnv }

/-- Concrete indicator vector with every field false. -/
def c5Dom : DomIndicators :=
  { expandUserDrawerButton := false, userAvatar := false,
    userAvatarSpan := false, faceplateUserDrawer := false,
    userMenuTrigger := false, createButton := false, karma := false,
    noLoginForm := false, noLoginPage := false }

/-- Concrete retry page state with every indicator absent and the address
still on the login surface. -/
def c5Retry : RetryIndicators :=
  { expandUserDrawerButton := false, userAvatar := false,
    userAvatarSpan := false, faceplateUserDrawer := false,
    loginUsernameInput := true, href := "https://www.reddit.com/login",
    userTestId := false, createButton := false }

/-- Concrete verification oracle that is inconclusive on both passes. -/
def c5Env : VerifyEnv :=
  { currentUrl := "https://www.reddit.com/login",
    domEval := .ok c5Dom, retryEval := .ok c5Retry }

/-- Concrete batch oracle with the fixture targets A, B, C where only B
fails to deliver. -/
def c6Env : BatchEnv :=
  { usersFileData := .ok "A\nB\nC",
    browserEnv := okBrowserEnv,
    loginResult := .ok (),
    deliver := fun _ u => if u == "B" then .error "User B not found" else .ok (),
    now := fun _ => "ts",
    saveResult := .ok "results.json" }

/-- Concrete chat page with neither a failure phrase nor a success
indicator. -/
def c7Page : ChatPage := { bodyText := "some chat content", sentTestId := false }

/-- Concrete chat-interface oracle ending on c7Page. -/
def c7Env : ChatEnv :=
  { composeEval := .ok true, altTypeResult := .ok (),
    mouseTypeResult := .ok (), sendClickEval := .ok true,
    enterResult := .ok (), statusPage := c7Page }

/-- Concrete indicator vector whose only true field is the absence of the
login form. -/
def c8Dom : DomIndicators :=
  { expandUserDrawerButton := false, userAvatar := false,
    userAvatarSpan := false, faceplateUserDrawer := false,
    userMenuTrigger := false, createButton := false, karma := false,
    noLoginForm := true, noLoginPage := false }

/-- Concrete verification oracle: address off the login, register and error
surfaces, no positive content indicator, login form absent. -/
def c8VerifyEnv : VerifyEnv :=
  { currentUrl := "https://www.reddit.com/",
    domEval := .ok c8Dom,
    retryEval := .ok
      { expandUserDrawerButton := false, userAvatar := false,
        userAvatarSpan := false, faceplateUserDrawer := false,
        loginUsernameInput := false, href := "https://www.reddit.com/",
        userTestId := false, createButton := false } }

/-- Concrete login oracle around c8VerifyEnv with no displayed challenge. -/
def c8LoginEnv : LoginEnv :=
  { captchaApiKey := some "key",
    gotoLoginResult := .ok (), waitUserResult := .ok (),
    waitPassResult := .ok (), fillUserEval := .ok (), fillPassEval := .ok (),
    clickEval := .ok true, secondClickEval := .ok true,
    captchaEnv :=
      { requiredEval := .ok false, sitekeyEval := .ok none,
        solveResult := .ok "token", submitEval := .ok (), navResult := .ok () },
    verifyEnv := c8VerifyEnv }

/-- Concrete batch oracle whose file mixes targets, a comment line, a blank
line and surrounding whitespace. -/
def c9Env : BatchEnv :=
  { usersFileData := .ok "x\n# note\n\n y\nz",
    browserEnv := okBrowserEnv,
    loginResult := .ok (),
    deliver := fun _ _ => .ok (),
    now := fun _ => "ts",
    saveResult := .ok "results.json" }

/-- Concrete challenge oracle with a displayed challenge and a solvable
continuation. -/
def c10CaptchaEnv : CaptchaEnv :=
  { requiredEval := .ok true, sitekeyEval := .ok (some "sk"),
    solveResult := .ok "token", submitEval := .ok (), navResult := .ok () }

/-- The catch block of redditMessenger leaves the finally trace unchanged. -/
theorem catchAndRethrow_trace (e : String) (sf : Except String Unit)
    (closed : List Event) : (catchAndRethrow e sf closed).2 = closed := by
  cases sf <;> rfl

/-- Appending the teardown event makes it the last trace entry. -/
theorem getLast_append_event (l : List Event) (a : Event) :
    (l ++ [a]).getLast? = some a := by
  simp [List.getLast?_concat]

/-- The per-user loop awaits the pacing delay once per target except after
the last one. -/
theorem runTargets_delay_count (deliver : Nat → String → Except String Unit)
    (now : Nat → String) :
    ∀ (users : List String) (i : Nat),
      countDelays (runTargets deliver now i users).2 = users.length - 1 := by
  intro users
  induction users with
  | nil => intro i; rfl
  | cons u rest ih =>
    intro i
    cases rest with
    | nil =>
      simp [runTargets, countDelays, List.count_cons]
    | cons v vs =>
      have h := ih (i + 1)
      simp [runTargets, countDelays, List.count_cons, List.count_append] at h ⊢
      omega

/-- The per-user loop attempts exactly the given targets, in order. -/
theorem runTargets_attempts (deliver : Nat → String → Except String Unit)
    (now : Nat → String) :
    ∀ (users : List String) (i : Nat),
      attemptsOf (runTargets deliver now i users).2 = users := by
  intro users
  induction users with
  | nil => intro i; rfl
  | cons u rest ih =>
    intro i
    cases rest with
    | nil => simp [runTargets, attemptsOf]
    | cons v vs =>
      have h := ih (i + 1)
      simp [runTargets, attemptsOf] at h ⊢
      exact h

/-- Positional outcome of the per-user loop: a delivered target lands in the
success list, a failed delivery is recorded as a failure entry carrying the
error message and the timestamp taken at that loop index. -/
theorem runTargets_outcome (deliver : Nat → String → Except String Unit)
    (now : Nat → String) :
    ∀ (users : List String) (i j : Nat) (hj : j < users.length),
      (deliver (i + j) users[j] = .ok () →
        users[j] ∈ (runTargets deliver now i users).1.success) ∧
      ∀ e, deliver (i + j) users[j] = .error e →
        ({ user := users[j], error := e, timestamp := now (i + j) } :
          FailureEntry) ∈ (runTargets deliver now i users).1.failed := by
  intro users
  induction users with
  | nil => intro i j hj; exact absurd hj (Nat.not_lt_zero j)
  | cons u rest ih =>
    intro i j hj
    cases j with
    | zero =>
      constructor
      · intro hok
        have hok2 : deliver i u = .ok () := by simpa using hok
        simp [runTargets, hok2]
      · intro e herr
        have herr2 : deliver i u = .error e := by simpa using herr
        simp [runTargets, herr2]
    | succ j =>
      have hj2 : j < rest.length := Nat.lt_of_succ_lt_succ hj
      have IH := ih (i + 1) j hj2
      have harith : i + (j + 1) = (i + 1) + j := by omega
      constructor
      · intro hok
        have hok2 : deliver (i + 1 + j) rest[j] = .ok () := by
          rw [← harith]; simpa using hok
        have hmem := IH.1 hok2
        cases hd : deliver i u <;> simp [runTargets, hd] <;> simp_all
      · intro e herr
        have herr2 : deliver (i + 1 + j) rest[j] = .error e := by
          rw [← harith]; simpa using herr
        have hmem := IH.2 e herr2
        cases hd : deliver i u <;> simp [runTargets, hd, harith] <;> simp_all

/-- The delivery confirmation returns without error exactly when no explicit
failure phrase is on the page. -/
theorem confirmDelivery_ok_iff (p : ChatPage) :
    confirmDelivery p = .ok () ↔ failurePhrase p = false := by
  unfold confirmDelivery deliveryStatus
  cases hf : failurePhrase p
  · cases hs : successIndicator p <;> simp
  · simp

/-- Claim C1: for every target list and every per-target delivery error, the
batch run catches the error at the orchestrator boundary, records it as a
failure entry of user, error message and timestamp, and continues with the
remaining targets, so the run still returns a result object; a failure of the
one-time login aborts the whole run with that error. -/
theorem batch_isolates_target_failures_and_login_fatal :
    (∀ (benv : BatchEnv) (usersData fileName : String),
      benv.usersFileData = .ok usersData →
      initBrowser benv.browserEnv = .ok () →
      benv.loginResult = .ok () →
      benv.saveResult = .ok fileName →
      ∃ r : BatchResults, (processOptimizedBatch benv).1 = .ok r ∧
        ∀ (j : Nat) (hj : j < (parseUsers usersData).length),
          (benv.deliver j (parseUsers usersData)[j] = .ok () →
            (parseUsers usersData)[j] ∈ r.success) ∧
          ∀ e, benv.deliver j (parseUsers usersData)[j] = .error e →
            ({ user := (parseUsers usersData)[j], error := e,
               timestamp := benv.now j } : FailureEntry) ∈ r.failed) ∧
    (∀ (benv : BatchEnv) (usersData e : String),
      benv.usersFileData = .ok usersData →
      initBrowser benv.browserEnv = .ok () →
      benv.loginResult = .error e →
      (processOptimizedBatch benv).1 = .error e) := by
  constructor
  · intro benv usersData fileName hfile hinit hlogin hsave
    refine ⟨(runTargets benv.deliver benv.now 0 (parseUsers usersData)).1,
      ?_, ?_⟩
    · simp [processOptimizedBatch, hfile, hinit, hlogin, hsave]
    · intro j hj
      have h := runTargets_outcome benv.deliver benv.now
        (parseUsers usersData) 0 j hj
      simpa using h
  · intro benv usersData e hfile hinit hlogin
    simp [processOptimizedBatch, hfile, hinit, hlogin]

/-- Claim C1 witness: on the concrete two-target batch where the second
delivery throws, the run returns a result with the first target a success
and the second recorded as a failure entry. -/
theorem batch_isolates_target_failures_and_login_fatal_witness :
    ∃ r : BatchResults, (processOptimizedBatch c1Env).1 = .ok r ∧
      "alice" ∈ r.success ∧
      ({ user := "bob", error := "boom", timestamp := "t1" } : FailureEntry)
        ∈ r.failed := by
  obtain ⟨r, hr, hall⟩ :=
    batch_isolates_target_failures_and_login_fatal.1 c1Env "alice\nbob"
      "results.json" rfl rfl rfl rfl
  refine ⟨r, hr, ?_, ?_⟩
  · exact (hall 0 (by decide)).1 rfl
  · exact (hall 1 (by decide)).2 "boom" rfl

/-- Claim C2 counterexample: when puppeteer.launch succeeds but the page
creation inside initBrowser throws, a browser session was created, yet the
run rethrows without the teardown event: the finally block sees the still
null browser variable, which is assigned only after initBrowser returns. -/
theorem session_close_counterexample :
    sessionLaunched c2CexEnv.browserEnv = true ∧
    (redditMessenger c2CexEnv).1 = .error "newPage failed" ∧
    Event.browserClosed ∉ (redditMessenger c2CexEnv).2 := by
  refine ⟨rfl, rfl, ?_⟩
  intro h
  simp [redditMessenger, c2CexEnv, c2CexBrowserEnv, initBrowser,
    catchAndRethrow] at h

/-- Claim C2 (amended): for every run, if initBrowser returned and the
session handle was assigned to the run, the session is closed on every exit
path, as the last action before the run returns or rethrows; a session
launched inside initBrowser whose page setup then fails is not covered. -/
theorem browser_closed_when_init_returns :
    (∀ env : SingleEnv, initBrowser env.browserEnv = .ok () →
      (redditMessenger env).2.getLast? = some Event.browserClosed) ∧
    (∀ (env : BatchEnv) (usersData : String),
      env.usersFileData = .ok usersData →
      initBrowser env.browserEnv = .ok () →
      (processOptimizedBatch env).2.getLast? = some Event.browserClosed) := by
  constructor
  · intro env hinit
    cases hl : env.loginResult with
    | error e => simp [redditMessenger, hinit, hl, catchAndRethrow_trace]
    | ok _ =>
      cases hd : env.deliverResult with
      | error e => simp [redditMessenger, hinit, hl, hd, catchAndRethrow_trace]
      | ok _ =>
        cases hs : env.saveOkResult with
        | error e =>
          simp [redditMessenger, hinit, hl, hd, hs, catchAndRethrow_trace]
        | ok _ => simp [redditMessenger, hinit, hl, hd, hs]
  · intro env usersData hfile hinit
    cases hl : env.loginResult with
    | error e => simp [processOptimizedBatch, hfile, hinit, hl]
    | ok _ =>
      cases hs : env.saveResult with
      | error e =>
        simp [processOptimizedBatch, hfile, hinit, hl, hs, getLast_append_event]
      | ok f =>
        simp [processOptimizedBatch, hfile, hinit, hl, hs, getLast_append_event]

/-- Claim C2 witness: on the all-successful single run the teardown event
closes the trace. -/
theorem browser_closed_when_init_returns_witness :
    initBrowser c2OkEnv.browserEnv = .ok () ∧
    (redditMessenger c2OkEnv).2.getLast? = some Event.browserClosed :=
  ⟨rfl, browser_closed_when_init_returns.1 c2OkEnv rfl⟩

/-- Claim C3: a target whose profile page is classified not-found or
suspended makes sendMessageToUser throw the descriptive error before the
chat-url extraction step is reached, and that step is reached only when the
classification is exists. -/
theorem profile_classification_gates_chat_url :
    (∀ (env : SendEnv) (u : String),
      Event.extractChatUrlCalled ∈ (sendMessageToUser env u).2 →
      classifyUser env.profileBody = UserStatus.exists_) ∧
    (∀ (env : SendEnv) (u : String), env.gotoProfileResult = .ok () →
      classifyUser env.profileBody = UserStatus.not_found →
      sendMessageToUser env u = (.error ("User " ++ u ++ " not found"), [])) ∧
    (∀ (env : SendEnv) (u : String), env.gotoProfileResult = .ok () →
      classifyUser env.profileBody = UserStatus.suspended →
      sendMessageToUser env u =
        (.error ("User " ++ u ++ " account suspended"), [])) := by
  refine ⟨?_, ?_, ?_⟩
  · intro env u hmem
    cases hg : env.gotoProfileResult with
    | error e => simp [sendMessageToUser, hg] at hmem
    | ok _ =>
      cases hc : classifyUser env.profileBody with
      | not_found => simp [sendMessageToUser, hg, hc] at hmem
      | suspended => simp [sendMessageToUser, hg, hc] at hmem
      | exists_ => rfl
  · intro env u hg hc
    simp [sendMessageToUser, hg, hc]
  · intro env u hg hc
    simp [sendMessageToUser, hg, hc]

/-- Claim C3 witness: on the concrete profile page showing the not-found
phrase, the delivery throws the descriptive error with an empty trace, so
the chat-url extraction was never reached. -/
theorem profile_classification_gates_chat_url_witness :
    classifyUser c3Env.profileBody = UserStatus.not_found ∧
    sendMessageToUser c3Env "ghost" = (.error "User ghost not found", []) := by
  refine ⟨rfl, ?_⟩
  exact profile_classification_gates_chat_url.2.1 c3Env "ghost" rfl rfl

/-- Claim C4: with a displayed challenge and no solving credential
configured, handleCaptchaIfPresent throws the challenge-unsolvable error
with no solving step reached, the error propagates out of loginToReddit,
and a login failure with that error aborts the batch run. -/
theorem challenge_unsolvable_without_solver :
    (∀ lenv : LoginEnv, preSubmitSteps lenv = .ok () →
      lenv.captchaEnv.requiredEval = .ok true →
      truthyStr lenv.captchaApiKey = false →
      handleCaptchaIfPresent lenv.captchaEnv (solverOf lenv.captchaApiKey)
          = (.error noSolverMsg, []) ∧
      (loginToReddit lenv).1 = .error noSolverMsg) ∧
    (∀ (benv : BatchEnv) (usersData : String),
      benv.usersFileData = .ok usersData →
      initBrowser benv.browserEnv = .ok () →
      benv.loginResult = .error noSolverMsg →
      (processOptimizedBatch benv).1 = .error noSolverMsg) := by
  constructor
  · intro lenv hpre hreq htruthy
    have hsolver : solverOf lenv.captchaApiKey = none := by
      simp [solverOf, htruthy]
    have hcap : handleCaptchaIfPresent lenv.captchaEnv
        (solverOf lenv.captchaApiKey) = (.error noSolverMsg, []) := by
      simp [handleCaptchaIfPresent, hreq, hsolver]
    exact ⟨hcap, by simp [loginToReddit, hpre, hcap]⟩
  · intro benv usersData hfile hinit hlogin
    simp [processOptimizedBatch, hfile, hinit, hlogin]

/-- Claim C4 witness: on the concrete login oracle with no configured key
and a displayed challenge, loginToReddit rethrows the challenge-unsolvable
error and no solving step was reached. -/
theorem challenge_unsolvable_without_solver_witness :
    preSubmitSteps c4Env = .ok () ∧
    handleCaptchaIfPresent c4Env.captchaEnv (solverOf c4Env.captchaApiKey)
      = (.error noSolverMsg, []) ∧
    (loginToReddit c4Env).1 = .error noSolverMsg :=
  ⟨rfl, (challenge_unsolvable_without_solver.1 c4Env rfl rfl rfl).1,
    (challenge_unsolvable_without_solver.1 c4Env rfl rfl rfl).2⟩

/-- Claim C5: when the primary combined verification and the reduced retry
are both inconclusive and no verification evaluate throws,
verifyLoginSuccess still returns true, and exactly one retry was
performed. -/
theorem verify_login_inconclusive_retry_returns_true
    (env : VerifyEnv) (d : DomIndicators) (r : RetryIndicators)
    (hdom : env.domEval = .ok d)
    (hurl : urlIndicatesSuccess env.currentUrl = false)
    (hd : domVerification d = false)
    (hretry : env.retryEval = .ok r)
    (hq : retryQuickCheck r = false) :
    verifyLoginSuccess env = (true, 1) := by
  simp [verifyLoginSuccess, hdom, hurl, hd, hretry]

/-- Claim C5 witness: on the concrete oracle where both passes are
inconclusive, the verdict is true after exactly one retry. -/
theorem verify_login_inconclusive_retry_returns_true_witness :
    urlIndicatesSuccess c5Env.currentUrl = false ∧
    domVerification c5Dom = false ∧
    retryQuickCheck c5Retry = false ∧
    verifyLoginSuccess c5Env = (true, 1) :=
  ⟨rfl, rfl, rfl,
    verify_login_inconclusive_retry_returns_true c5Env c5Dom c5Retry
      rfl rfl rfl rfl rfl⟩

/-- Claim C6: for every batch of K parsed targets the pacing delay is
awaited exactly K minus one times, regardless of per-target outcomes. -/
theorem pacing_delay_count :
    ∀ (benv : BatchEnv) (usersData fileName : String),
      benv.usersFileData = .ok usersData →
      initBrowser benv.browserEnv = .ok () →
      benv.loginResult = .ok () →
      benv.saveResult = .ok fileName →
      countDelays (processOptimizedBatch benv).2
        = (parseUsers usersData).length - 1 := by
  intro benv usersData fileName hfile hinit hlogin hsave
  have h := runTargets_delay_count benv.deliver benv.now
    (parseUsers usersData) 0
  simp [processOptimizedBatch, hfile, hinit, hlogin, hsave, countDelays,
    List.count_append] at h ⊢
  omega

/-- Claim C6 witness: the fixture batch of targets A, B, C, with B failing,
yields successes A and C, the failure entry for B, and exactly two pacing
delays. -/
theorem pacing_delay_count_witness :
    countDelays (processOptimizedBatch c6Env).2 = 2 ∧
    (processOptimizedBatch c6Env).1 = .ok
      { success := ["A", "C"],
        failed := [{ user := "B", error := "User B not found",
                     timestamp := "ts" }] } := by
  constructor
  · have h := pacing_delay_count c6Env "A\nB\nC" "results.json" rfl rfl rfl rfl
    exact h.trans (by rfl)
  · rfl

/-- Claim C7: the delivery confirmation throws exactly when an explicit
failure phrase is present in the page text; with neither a failure phrase
nor a success indicator, the status is unknown and the function returns
without error, so the chat-interface step succeeds. -/
theorem delivery_confirmation_error_iff_failure_phrase :
    (∀ p : ChatPage,
      (∃ e, confirmDelivery p = .error e) ↔ failurePhrase p = true) ∧
    (∀ p : ChatPage, failurePhrase p = false → successIndicator p = false →
      deliveryStatus p = "unknown" ∧ confirmDelivery p = .ok ()) ∧
    (∀ cenv : ChatEnv, cenv.composeEval = .ok true →
      cenv.sendClickEval = .ok true →
      (sendMessageInChatInterface cenv = .ok () ↔
        failurePhrase cenv.statusPage = false)) := by
  refine ⟨?_, ?_, ?_⟩
  · intro p
    cases hf : failurePhrase p
    · have hok := (confirmDelivery_ok_iff p).mpr hf
      simp [hok]
    · constructor
      · intro _; rfl
      · intro _
        refine ⟨deliveryFailedMsg, ?_⟩
        simp [confirmDelivery, deliveryStatus, hf]
  · intro p hf hs
    constructor
    · simp [deliveryStatus, hf, hs]
    · exact (confirmDelivery_ok_iff p).mpr hf
  · intro cenv h1 h2
    simp [sendMessageInChatInterface, h1, h2]
    exact confirmDelivery_ok_iff cenv.statusPage

/-- Claim C7 witness: on the concrete chat page with neither phrase, the
status is unknown, the confirmation returns without error, and the whole
chat-interface step succeeds. -/
theorem delivery_confirmation_error_iff_failure_phrase_witness :
    deliveryStatus c7Page = "unknown" ∧ confirmDelivery c7Page = .ok () ∧
    sendMessageInChatInterface c7Env = .ok () :=
  ⟨(delivery_confirmation_error_iff_failure_phrase.2.1 c7Page rfl rfl).1,
    (delivery_confirmation_error_iff_failure_phrase.2.1 c7Page rfl rfl).2,
    (delivery_confirmation_error_iff_failure_phrase.2.2 c7Env rfl rfl).mpr rfl⟩

/-- Claim C8: when the post-submit address contains none of the three
failure markers and the login form is absent, verifyLoginSuccess returns
true with no retry and no positive content indicator required, and a login
run whose other steps succeed reaches the authenticated result. -/
theorem url_and_no_form_verifies_login :
    (∀ (env : VerifyEnv) (d : DomIndicators), env.domEval = .ok d →
      containsSubstr env.currentUrl "/login" = false →
      containsSubstr env.currentUrl "/register" = false →
      containsSubstr env.currentUrl "/error" = false →
      d.noLoginForm = true →
      verifyLoginSuccess env = (true, 0)) ∧
    (∀ lenv : LoginEnv, preSubmitSteps lenv = .ok () →
      lenv.captchaEnv.requiredEval = .ok false →
      (verifyLoginSuccess lenv.verifyEnv).1 = true →
      (loginToReddit lenv).1 = .ok true) := by
  constructor
  · intro env d hdom h1 h2 h3 _
    have hurl : urlIndicatesSuccess env.currentUrl = true := by
      simp [urlIndicatesSuccess, h1, h2, h3]
    simp [verifyLoginSuccess, hdom, hurl]
  · intro lenv hpre hreq hv
    have hcap : handleCaptchaIfPresent lenv.captchaEnv
        (solverOf lenv.captchaApiKey) = (.ok (), []) := by
      simp [handleCaptchaIfPresent, hreq]
    simp [loginToReddit, hpre, hcap, hv]

/-- Claim C8 witness: on the concrete oracle with the address off the three
marker surfaces, the login form absent and every positive content indicator
false, verification succeeds at once and the login run returns true. -/
theorem url_and_no_form_verifies_login_witness :
    verifyLoginSuccess c8VerifyEnv = (true, 0) ∧
    (loginToReddit c8LoginEnv).1 = .ok true := by
  have h1 := url_and_no_form_verifies_login.1 c8VerifyEnv c8Dom rfl rfl rfl rfl rfl
  exact ⟨h1,
    url_and_no_form_verifies_login.2 c8LoginEnv rfl rfl (congrArg Prod.fst h1)⟩

/-- The filtered trimmed newline split equals the fold stated from the
specification wording. -/
theorem parse_filter_eq_foldr (l : List String) :
    (l.map jsTrim).filter (fun line => line != "" && !jsStartsWith line "#")
      = l.foldr (fun line acc =>
          let t := jsTrim line
          if t = "" then acc
          else if jsStartsWith t "#" then acc
          else t :: acc) [] := by
  induction l with
  | nil => rfl
  | cons a l ih =>
    by_cases h1 : jsTrim a = ""
    · simp [h1, ih]
    · cases h2 : jsStartsWith (jsTrim a) "#"
      · simp [h1, h2, ih]
      · simp [h1, h2, ih]

/-- Claim C9: the parsed target list is the newline split with lines
trimmed, empty lines and comment lines removed, relative order preserved
(the parsed list is a sublist of the trimmed lines), and this order is
exactly the processing order of the batch. -/
theorem parse_targets_spec_equivalence :
    (∀ s, parseUsers s = specTargetList s) ∧
    (∀ s, List.Sublist (parseUsers s) ((jsSplitLines s).map jsTrim)) ∧
    (∀ (benv : BatchEnv) (usersData fileName : String),
      benv.usersFileData = .ok usersData →
      initBrowser benv.browserEnv = .ok () →
      benv.loginResult = .ok () →
      benv.saveResult = .ok fileName →
      attemptsOf (processOptimizedBatch benv).2 = parseUsers usersData) := by
  refine ⟨?_, ?_, ?_⟩
  · intro s
    exact parse_filter_eq_foldr (jsSplitLines s)
  · intro s
    exact List.filter_sublist _
  · intro benv usersData fileName hfile hinit hlogin hsave
    have h := runTargets_attempts benv.deliver benv.now (parseUsers usersData) 0
    simp [processOptimizedBatch, hfile, hinit, hlogin, hsave, attemptsOf,
      List.filterMap_append] at h ⊢
    simpa using h

/-- Claim C9 witness: on the concrete file with a comment line, a blank line
and a padded line, the batch attempts exactly the three cleaned targets in
file order. -/
theorem parse_targets_spec_equivalence_witness :
    attemptsOf (processOptimizedBatch c9Env).2 = ["x", "y", "z"] := by
  have h := parse_targets_spec_equivalence.2.2 c9Env "x\n# note\n\n y\nz"
    "results.json" rfl rfl rfl rfl
  exact h.trans (by rfl)

/-- Claim C10: without an override the merged configuration carries the
truthy placeholder key, so a Solver is constructed and, when a challenge is
displayed, the login run proceeds into the site-key extraction rather than
the no-solver hard stop; the solver can be absent only when the caller
explicitly passes a falsy captchaApiKey override. -/
theorem default_captcha_key_precludes_no_solver_stop :
    mergedCaptchaApiKey none = some "YOUR_CAPTCHA_API_KEY_HERE" ∧
    truthyStr (mergedCaptchaApiKey none) = true ∧
    solverOf (mergedCaptchaApiKey none) = some "YOUR_CAPTCHA_API_KEY_HERE" ∧
    (∀ cenv : CaptchaEnv, cenv.requiredEval = .ok true →
      (handleCaptchaIfPresent cenv
          (solverOf (mergedCaptchaApiKey none))).2.head?
        = some Event.sitekeyExtracted) ∧
    (∀ configOverride : Option (Option String),
      solverOf (mergedCaptchaApiKey configOverride) = none →
      ∃ v, configOverride = some v ∧ truthyStr v = false) := by
  refine ⟨rfl, rfl, rfl, ?_, ?_⟩
  · intro cenv h
    rw [show solverOf (mergedCaptchaApiKey none)
      = some "YOUR_CAPTCHA_API_KEY_HERE" from rfl]
    cases hk : cenv.sitekeyEval with
    | error e => simp [handleCaptchaIfPresent, h, hk]
    | ok o =>
      cases o with
      | none => simp [handleCaptchaIfPresent, h, hk]
      | some sk =>
        cases hv : cenv.solveResult with
        | error e => simp [handleCaptchaIfPresent, h, hk, hv]
        | ok t =>
          cases hsub : cenv.submitEval with
          | error e => simp [handleCaptchaIfPresent, h, hk, hv, hsub]
          | ok _ =>
            cases hn : cenv.navResult with
            | error e => simp [handleCaptchaIfPresent, h, hk, hv, hsub, hn]
            | ok _ => simp [handleCaptchaIfPresent, h, hk, hv, hsub, hn]
  · intro o hsol
    cases o with
    | none =>
      rw [show solverOf (mergedCaptchaApiKey none)
        = some "YOUR_CAPTCHA_API_KEY_HERE" from rfl] at hsol
      exact absurd hsol (by simp)
    | some v =>
      refine ⟨v, rfl, ?_⟩
      cases ht : truthyStr v with
      | false => rfl
      | true =>
        exfalso
        have hv : solverOf v = v := by simp [solverOf, ht]
        rw [show mergedCaptchaApiKey (some v) = v from rfl, hv] at hsol
        rw [hsol] at ht
        simp [truthyStr] at ht

/-- Claim C10 witness: on the concrete displayed challenge with the default
merged key, execution reaches the site-key extraction; and the explicit null
override is the falsy value that removes the solver. -/
theorem default_captcha_key_precludes_no_solver_stop_witness :
    (handleCaptchaIfPresent c10CaptchaEnv
        (solverOf (mergedCaptchaApiKey none))).2.head?
      = some Event.sitekeyExtracted ∧
    ∃ v, (some none : Option (Option String)) = some v ∧ truthyStr v = false :=
  ⟨default_captcha_key_precludes_no_solver_stop.2.2.2.1 c10CaptchaEnv rfl,
    default_captcha_key_precludes_no_solver_stop.2.2.2.2 (some none) rfl⟩
